import Mathlib

set_option linter.unusedVariables false

/-!
A shallow embedding of the Shello terminal chat client's session/command
engine (`src/frontend/app/routes/terminal.tsx`), together with theorems
settling the specification claims about the tokenizer, the command
registry, the message log, the session manager's reply handling, the
suppression flag, and the reconnect logic.
-/

namespace Shello

/-- Message kinds used by the log (`kind` strings in the source). -/
inductive Kind
  | OUT
  | IN
  | INFO
  | ERROR
  | COMMAND
  | TEMPINFO
  | CLEAR
  | CLEAR_ALL
deriving Repr, DecidableEq

/-- A display entry in the message log (the `messages` array elements).
Timestamps are modelled as abstract instants (`Nat`). -/
structure Msg where
  id : Nat
  text : String
  kind : Kind
  sender : String
  timestamp : Nat
  readBy : Option Nat
deriving Repr, DecidableEq

/-- The message log together with the local id counter (`idRef`). -/
structure LogState where
  messages : List Msg
  nextId : Nat
deriving Repr, DecidableEq

/-- Kinds evicted when an `INFO` or `IN` entry arrives
(`msg.kind !== "COMMAND" && msg.kind !== "ERROR" && msg.kind !== "TEMPINFO"`). -/
def isEvictOnReal (k : Kind) : Bool :=
  match k with
  | .COMMAND => true
  | .ERROR => true
  | .TEMPINFO => true
  | _ => false

/-- The two control-signal kinds. -/
def isClearKind (k : Kind) : Bool :=
  match k with
  | .CLEAR => true
  | .CLEAR_ALL => true
  | _ => false

/-- The entry object literal built inside `pushMessage`'s `setMessages`
callback; `timestamp: new Date()` is the local append instant `now`. -/
def mkEntry (text : String) (kind : Kind) (sender : String) (mid : Nat) (now : Nat) : Msg :=
  { id := mid
    text := text
    kind := kind
    sender := sender
    timestamp := now
    readBy := if kind == .OUT then some 0 else none }

/-- `pushMessage(text, kind, sender, timestamp?, id?)` from the source.
`CLEAR_ALL` empties the log; `CLEAR` keeps only `IN` entries; any other
kind first evicts `COMMAND`/`ERROR`/`TEMPINFO` when the new kind is
`INFO` or `IN`, then appends the new entry.  The `timestamp` parameter of
the source signature is accepted but never read: the stored timestamp is
always `new Date()` (here `now`). -/
def pushMessage (text : String) (kind : Kind) (sender : String)
    (timestamp : Option Nat) (id : Option Nat) (now : Nat) (st : LogState) : LogState :=
  match kind with
  | .CLEAR_ALL => { st with messages := [] }
  | .CLEAR => { st with messages := st.messages.filter (fun m => m.kind == .IN) }
  | _ =>
    let base :=
      if kind == .INFO || kind == .IN then
        st.messages.filter (fun m => !(isEvictOnReal m.kind))
      else
        st.messages
    let mid := id.getD st.nextId
    let nid := match id with
      | some _ => st.nextId
      | none => st.nextId + 1
    { messages := base ++ [mkEntry text kind sender mid now], nextId := nid }

/-- The argument shape of `pushMessageDirectly` (server-originated entry). -/
structure DirectMsg where
  id : Nat
  text : String
  kind : Option Kind
  sender : String
  timestamp : Option Nat
  readBy : Option Nat
deriving Repr, DecidableEq

/-- `pushMessageDirectly(msg)` forwards the server's own timestamp and id to
`pushMessage` (`pushMessage(msg.text, msg.kind ?? "IN", msg.sender, msg.timestamp, msg.id)`). -/
def pushMessageDirectly (m : DirectMsg) (now : Nat) (st : LogState) : LogState :=
  pushMessage m.text (m.kind.getD .IN) m.sender m.timestamp (some m.id) now st

/-- The in-place tombstone mutation of the `message_deleted` handler:
`updated[msgToDelete].text = "[Nachricht gelöscht]"; updated[msgToDelete].kind = "INFO"`. -/
def tombstone (m : Msg) : Msg :=
  { m with text := "[Nachricht gelöscht]", kind := Kind.INFO }

/-- The `message_deleted` broadcast handler's log update: find the first
entry with the given id (`findIndex`) and tombstone it in place; if no
entry matches, the log is unchanged. -/
def applyMessageDeleted (mid : Nat) : List Msg → List Msg
  | [] => []
  | m :: rest =>
    if m.id == mid then tombstone m :: rest
    else m :: applyMessageDeleted mid rest

/-- JS `/\s/`, the ECMAScript WhiteSpace ∪ LineTerminator class (also
what `String.prototype.trim` strips): tab, LF, VT, FF, CR, space, NBSP,
Ogham space mark, the U+2000–U+200A spaces, LS, PS, narrow NBSP, medium
mathematical space, ideographic space, and the BOM. -/
def isJsSpace (c : Char) : Bool :=
  c == ' ' || c == '\t' || c == '\n' || c == '\r' || c == '\x0b' || c == '\x0c' ||
  c == '\u00A0' || c == '\u1680' ||
  ('\u2000' ≤ c && c ≤ '\u200A') ||
  c == '\u2028' || c == '\u2029' || c == '\u202F' || c == '\u205F' ||
  c == '\u3000' || c == '\uFEFF'

/-- Scanner state of `parseCommand`: collected `args`, current token `cur`,
`inQuote` flag and the opening `quoteChar` (only read while `inQuote`). -/
structure ScanState where
  args : List String
  cur : String
  inQuote : Bool
  quoteChar : Char
deriving Repr, DecidableEq

/-- One iteration of `parseCommand`'s character loop. -/
def scanChar (s : ScanState) (ch : Char) : ScanState :=
  if s.inQuote then
    if ch == s.quoteChar then
      if s.cur != "" then
        { args := s.args ++ [s.cur], cur := "", inQuote := false, quoteChar := ' ' }
      else
        { s with inQuote := false, quoteChar := ' ' }
    else
      { s with cur := s.cur.push ch }
  else
    if ch == '"' || ch == '\'' then
      { s with inQuote := true, quoteChar := ch }
    else if isJsSpace ch then
      if s.cur != "" then { s with args := s.args ++ [s.cur], cur := "" } else s
    else
      { s with cur := s.cur.push ch }

/-- `parseCommand(input)`: tokenize, fail on an unterminated quote, split
off the first token as the command (`args.shift() || ""`). -/
def parseCommand (input : String) : Except String (String × List String) :=
  let s := input.data.foldl scanChar { args := [], cur := "", inQuote := false, quoteChar := ' ' }
  let args := if s.cur != "" then s.args ++ [s.cur] else s.args
  if s.inQuote then
    .error "Unterminated quote"
  else
    match args with
    | [] => .ok ("", [])
    | c :: rest => .ok (c, rest)

/-- A cached room (`rooms` state: `{ id, name, memberCount }`). -/
structure Room where
  id : Nat
  name : String
  memberCount : Nat
deriving Repr, DecidableEq

/-- Theme colours (`interface ThemeColors`). -/
structure ThemeColors where
  outerBgColor : String
  bgColor : String
  textColor : String
  borderColor : String
  buttonHoverBgColor : String
  systemTextColor : String
deriving Repr, DecidableEq

/-- `defaultTheme` from the source. -/
def defaultTheme : ThemeColors :=
  { outerBgColor := "#1a1a1a"
    bgColor := "#000000"
    textColor := "#00ff00"
    borderColor := "#333333"
    buttonHoverBgColor := "#00cc00"
    systemTextColor := "#ffcc00" }

/-- Outbound wire requests (`{func: ..., ...}` objects sent over the socket). -/
inductive Request
  | msg (text : String) (room_id : Int)
  | create_user (username : String)
  | login_as (username : String)
  | create_room (room_name : String)
  | join_room (room_id : Int)
  | get_messages (room_id : Int)
  | get_rooms
  | delete_msg (message_id : Nat) (room_id : Int)
deriving Repr, DecidableEq

/-- The client state visible to the session/command engine: the log, the
identity and room state, the cached room list, known users, the outbound
request trace, the suppression flag (`nextRequestSilent`), the was-online
flag (`onlineFlag`), theme state, the notification line, the command
history, and the trace of scheduled reconnect delays. -/
structure TermState where
  log : LogState
  user : String
  roomId : Int
  roomName : String
  rooms : List Room
  knownUsers : List (Nat × String)
  outbound : List Request
  silent : Bool
  online : Bool
  theme : ThemeColors
  savedThemes : List (String × ThemeColors)
  systemNotification : String
  commandHistory : List String
  historyIndex : Int
  scheduledReconnects : List Nat
deriving Repr, DecidableEq

/-- The initial client state (fresh component mount, nothing persisted). -/
def baseState : TermState :=
  { log := { messages := [], nextId := 1 }
    user := "guest"
    roomId := -1
    roomName := "null"
    rooms := []
    knownUsers := []
    outbound := []
    silent := false
    online := false
    theme := defaultTheme
    savedThemes := []
    systemNotification := ""
    commandHistory := []
    historyIndex := -1
    scheduledReconnects := [] }

/-- `pushMessage` lifted to the full client state. -/
def pushMessageS (text : String) (kind : Kind) (sender : String)
    (timestamp : Option Nat) (id : Option Nat) (now : Nat) (st : TermState) : TermState :=
  { st with log := pushMessage text kind sender timestamp id now st.log }

/-- `tryPushMessage(text, kind, sender)`: while `nextRequestSilent` is set,
drop the entry and clear the flag; otherwise forward to `pushMessage`. -/
def tryPushMessage (text : String) (kind : Kind) (sender : String)
    (now : Nat) (st : TermState) : TermState :=
  if st.silent then
    { st with silent := false }
  else
    pushMessageS text kind sender none none now st

/-- `ws.current?.send(...)`: record an outbound request. -/
def sendReq (r : Request) (st : TermState) : TermState :=
  { st with outbound := st.outbound ++ [r] }

/-- `setSystemNotification(text)`. -/
def notify (text : String) (st : TermState) : TermState :=
  { st with systemNotification := text }

/-- `addUserToKnownList(id, name)`. -/
def addUserToKnownList (id : Nat) (name : String) (st : TermState) : TermState :=
  { st with knownUsers := st.knownUsers ++ [(id, name)] }

/-- The command-history bookkeeping at the top of `handleCommandLine`:
append the line unless it equals the previous one, reset `historyIndex`. -/
def recordLine (line : String) (st : TermState) : TermState :=
  let st1 :=
    if st.commandHistory.getLast? == some line then st
    else { st with commandHistory := st.commandHistory ++ [line] }
  { st1 with historyIndex := -1 }

/-- The keys of the `COMMANDS` registry object, in declaration order. -/
def registryKeys : List String :=
  ["h", "whoami", "clear", "clearall", "history", "send", "forge",
   "impersonate", "create room", "accede", "roomtour", "annihilate",
   "theme", "theme save", "theme load", "help", "exit"]

/-- `COMMANDS[name]` as a lookup (`undefined` becomes `none`); the handler
bodies themselves live in `runHandler`, keyed by the same name. -/
def lookupCommand (name : String) : Option String :=
  if registryKeys.contains name then some name else none

/-- The resolution step of `handleCommandLine`: with non-empty `args`,
first probe the two-token command `"<cmd> <args[0]>"` and drop `args[0]`
from the forwarded arguments on a hit; otherwise fall back to the bare
command with the full argument list. -/
def resolveCommand (cmd : String) (args : List String) : Option (String × List String) :=
  let viaSub : Option (String × List String) :=
    match args with
    | a :: rest =>
      match lookupCommand (cmd ++ " " ++ a) with
      | some h => some (h, rest)
      | none => none
    | [] => none
  match viaSub with
  | some r => some r
  | none => (lookupCommand cmd).map (fun h => (h, args))

/-- JS `parseInt` at radix 10 on the inputs this client can produce:
skip leading whitespace, optional sign, then a non-empty digit prefix;
`none` models `NaN`.  (The hexadecimal `0x` corner of `parseInt` is
irrelevant here: a `0x…` argument still yields a number, not `NaN`.) -/
def parseIntJS (s : String) : Option Int :=
  let t := s.data.dropWhile isJsSpace
  let signed : Int × List Char :=
    match t with
    | '-' :: r => (-1, r)
    | '+' :: r => (1, r)
    | _ => (1, t)
  let ds := signed.2.takeWhile Char.isDigit
  if ds.isEmpty then none
  else some (signed.1 * (ds.foldl (fun n c => n * 10 + (c.toNat - 48)) 0 : Nat))

/-- Failure modes of relative deletion (spec taxonomy §7): non-positive
offset, and running off the start of the log (`messages[...]` becoming
`undefined`, which aborts the handler). -/
inductive DelErr
  | BadArguments
  | OutOfRange
deriving Repr, DecidableEq

/-- The counting condition of `deleteMsg`'s scanning loop
(`msg.sender === user && (msg.kind === "IN" || msg.kind === "OUT")`). -/
def isOwnChat (user : String) (m : Msg) : Bool :=
  m.sender == user && (m.kind == .IN || m.kind == .OUT)

/-- The scanning loop of `deleteMsg`, walking the log from the end
(modelled on the reversed list): count only entries satisfying
`isOwnChat`; the n-th such entry's id is the answer; running out of
entries is the out-of-range failure (the `undefined` access). -/
def resolveNthOwnRev (user : String) : List Msg → Nat → Except DelErr Nat
  | [], _ => .error .OutOfRange
  | m :: rest, n =>
    if isOwnChat user m then
      if n ≤ 1 then .ok m.id else resolveNthOwnRev user rest (n - 1)
    else
      resolveNthOwnRev user rest n

/-- `deleteMsg(relativeMsg)`'s resolution of a relative offset to a
message id: reject non-positive offsets (`relativeMsg <= 0`), otherwise
scan from the end of the log. -/
def deleteMsgResolve (msgs : List Msg) (user : String) (n : Int) : Except DelErr Nat :=
  if n ≤ 0 then .error .BadArguments
  else resolveNthOwnRev user msgs.reverse n.toNat

/-- The seven optional values collected by the `theme` handler's
argument loop. -/
structure ThemeOpts where
  tc : Option String
  bg : Option String
  bc : Option String
  ob : Option String
  hv : Option String
  sc : Option String
  f : Option String
deriving Repr, DecidableEq

/-- The `theme` handler's flag loop: a recognised flag consumes the next
argument as its value (skipping it), any other token is skipped, and a
trailing flag without a value is ignored (`i + 1 < args.length`). -/
def parseThemeArgs : List String → ThemeOpts → ThemeOpts
  | [], acc => acc
  | [_], acc => acc
  | a :: b :: rest, acc =>
    if a == "-tc" then parseThemeArgs rest { acc with tc := some b }
    else if a == "-bg" then parseThemeArgs rest { acc with bg := some b }
    else if a == "-bc" then parseThemeArgs rest { acc with bc := some b }
    else if a == "-ob" then parseThemeArgs rest { acc with ob := some b }
    else if a == "-hv" then parseThemeArgs rest { acc with hv := some b }
    else if a == "-sc" then parseThemeArgs rest { acc with sc := some b }
    else if a == "-f" then parseThemeArgs rest { acc with f := some b }
    else parseThemeArgs (b :: rest) acc

/-- The usage text shown by `theme` when no option was given. -/
def themeUsageText : String :=
  "Verwendung: theme [Optionen]\n" ++
  "Optionen:\n" ++
  "  -tc <Farbe>  Textfarbe\n" ++
  "  -bg <Farbe>  Hintergrundfarbe\n" ++
  "  -bc <Farbe>  Randfarbe\n" ++
  "  -ob <Farbe>  Äußere Hintergrundfarbe\n" ++
  "  -hv <Farbe>  Button Hover Farbe\n" ++
  "  -sc <Farbe>  System-Nachrichten Farbe\n" ++
  "  -f <Schrift> Schriftart (noch nicht implementiert)\n\n" ++
  "Beispiel: theme -tc #00ff00 -bg #000000"

/-- The `theme` handler (the theme context is always supplied by the
caller, so the unavailable-branch of the source is dead code here). -/
def themeHandler (args : List String) (st : TermState) : TermState :=
  let o := parseThemeArgs args ⟨none, none, none, none, none, none, none⟩
  if o.tc.isNone && o.bg.isNone && o.bc.isNone && o.ob.isNone
      && o.hv.isNone && o.sc.isNone && o.f.isNone then
    notify themeUsageText st
  else
    let newTheme : ThemeColors :=
      { textColor := o.tc.getD st.theme.textColor
        bgColor := o.bg.getD st.theme.bgColor
        borderColor := o.bc.getD st.theme.borderColor
        outerBgColor := o.ob.getD st.theme.outerBgColor
        buttonHoverBgColor := o.hv.getD st.theme.buttonHoverBgColor
        systemTextColor := o.sc.getD st.theme.systemTextColor }
    let changes : List String :=
      (match o.tc with | some c => ["Textfarbe: " ++ c] | none => []) ++
      (match o.bg with | some c => ["Hintergrundfarbe: " ++ c] | none => []) ++
      (match o.bc with | some c => ["Randfarbe: " ++ c] | none => []) ++
      (match o.ob with | some c => ["Äußere Hintergrundfarbe: " ++ c] | none => []) ++
      (match o.hv with | some c => ["Hover-Farbe: " ++ c] | none => []) ++
      (match o.sc with | some c => ["System-Nachrichten Farbe: " ++ c] | none => []) ++
      (match o.f with | some c => ["Schriftart " ++ c ++ " (noch nicht unterstützt)"] | none => [])
    notify ("Theme angepasst:\n  " ++ String.intercalate "\n  " changes)
      { st with theme := newTheme }

/-- JS object update `savedThemes[name] = theme` on an association list. -/
def setAssoc (k : String) (v : ThemeColors) : List (String × ThemeColors) → List (String × ThemeColors)
  | [] => [(k, v)]
  | (k', v') :: rest => if k' == k then (k, v) :: rest else (k', v') :: setAssoc k v rest

/-- The `help` text constant from the source. -/
def helpText : String :=
  "Verfügbare Befehle:\n\n" ++
  "=== Nachrichten ===\n" ++
  "  send <Nachricht>     - Sendet eine Nachricht\n" ++
  "  clear                - Löscht alle Info-Nachrichten aus dem Terminal\n" ++
  "  clearall             - Löscht alle Nachrichten aus dem Terminal\n" ++
  "  history              - Zeigt Nachrichtenverlauf des aktuellen Raums\n\n" ++
  "=== Benutzer ===\n" ++
  "  whoami               - Zeigt aktuellen Benutzer\n" ++
  "  forge <Name>         - Erstellt neuen Benutzer\n" ++
  "  impersonate <Name>   - Wechselt zu anderem Benutzer\n" ++
  "  accede                - Wechselt Chat\n" ++
  "  roomtour             - Liste alle Benutzer/Gruppen\n\n" ++
  "=== Personalisierung ===\n" ++
  "  theme [Optionen]     - Passe Farben und Schrift an\n" ++
  "    -tc <Farbe>        - Textfarbe\n" ++
  "    -bg <Farbe>        - Hintergrundfarbe\n" ++
  "    -bc <Farbe>        - Randfarbe\n" ++
  "    -ob <Farbe>        - Äußere Hintergrundfarbe\n" ++
  "    -hv <Farbe>        - Button Hover Farbe\n" ++
  "    -sc <Farbe>        - System-Nachrichten Farbe\n" ++
  "    -f <Schrift>       - Schriftart (noch nicht implementiert)\n" ++
  "  theme save <Name>    - Speichere aktuelles Theme\n" ++
  "  theme load [Name]    - Lade gespeichertes Theme (ohne Name: Liste)\n\n" ++
  "=== System ===\n" ++
  "  help                 - Diese Hilfe\n" ++
  "  h                    - Kurze Befehlsliste\n" ++
  "  exit                 - Beende Terminal-Sitzung (noch nicht implementiert)"

/-- `enterRoom(roomName)`: unknown room pushes an `ERROR` entry; a known
room is entered (state update, `INFO` entry, join and history requests). -/
def enterRoom (name : String) (now : Nat) (st : TermState) : TermState :=
  match st.rooms.find? (fun r => r.name == name) with
  | none => pushMessageS ("Raum '" ++ name ++ "' nicht gefunden.") .ERROR "System" none none now st
  | some r =>
    sendReq (.get_messages (r.id : Int))
      (sendReq (.join_room (r.id : Int))
        (pushMessageS ("Zu Raum '" ++ name ++ "' gewechselt.") .INFO "System" none none now
          { st with roomId := (r.id : Int), roomName := r.name }))

/-- The effect of `deleteMsg(relativeMsg)`: a non-positive offset pushes an
`ERROR` entry and returns; a resolvable offset emits a `delete_msg`
request; running off the start of the log is the `undefined`-access
failure, which aborts the handler (the JS engine's `TypeError`). -/
def deleteMsgEffect (n : Int) (now : Nat) (st : TermState) : Except String TermState :=
  if n ≤ 0 then
    .ok (pushMessageS "annihilate: parameter must be a positive number and not zero"
      .ERROR "System" none none now st)
  else
    match resolveNthOwnRev st.user st.log.messages.reverse n.toNat with
    | .ok mid => .ok (sendReq (.delete_msg mid st.roomId) st)
    | .error _ => .error "Cannot read properties of undefined (reading 'sender')"

/-- The body of the `COMMANDS` handler registered under `name`, applied to
the forwarded arguments.  A thrown JS `Error` is an `Except.error`
carrying the error message.  No registered handler mutates engine state
before throwing, so modelling a throw as discarding the handler's partial
state is faithful.  Only registered names are ever dispatched, so the
catch-all case is unreachable from `handleCommandLine`. -/
def runHandler (name : String) (args : List String) (now : Nat) (st : TermState) :
    Except String TermState :=
  match name with
  | "h" =>
    .ok (pushMessageS ("Verfügbare Befehle: " ++ String.intercalate ", " registryKeys)
      .INFO "System" none none now st)
  | "whoami" =>
    .ok (pushMessageS ("Aktueller Benutzer: <" ++ st.user ++ ">") .INFO "System" none none now st)
  | "clear" => .ok (pushMessageS "" .CLEAR "System" none none now st)
  | "clearall" => .ok (pushMessageS "" .CLEAR_ALL "System" none none now st)
  | "history" => .ok (sendReq (.get_messages st.roomId) st)
  | "send" =>
    if args.isEmpty then .error "send: Nachricht fehlt"
    else .ok (sendReq (.msg (String.intercalate " " args) st.roomId) st)
  | "forge" =>
    match args with
    | [] => .error "forge: Benutzername fehlt"
    | u :: _ =>
      .ok (notify ("Neuer Nutzer '" ++ u ++ "' erstellt")
        (pushMessageS ("Erstelle neuen Nutzer '" ++ u ++ "'...") .TEMPINFO "System" none none now
          (sendReq (.create_user u) st)))
  | "impersonate" =>
    match args with
    | [] => .error "impersonate: Benutzername fehlt"
    | u :: _ =>
      .ok (pushMessageS ("Wechsel zu Nutzer '" ++ u ++ "'...") .TEMPINFO "System" none none now
        (sendReq (.login_as u) st))
  | "create room" =>
    match args with
    | [] => .error "create room: Raumname fehlt"
    | _ =>
      let roomName := String.intercalate " " args
      if st.rooms.any (fun r => r.name == roomName) then
        .error ("Raum '" ++ roomName ++ "' existiert bereits")
      else
        .ok (sendReq (.create_room roomName) st)
  | "accede" =>
    match args with
    | [] => .error "enter: Raumname fehlt"
    | a :: _ =>
      .ok (enterRoom a now
        (pushMessageS ("Wechsel zu Raum '" ++ a ++ "'...") .TEMPINFO "System" none none now st))
  | "roomtour" => .ok (sendReq .get_rooms st)
  | "annihilate" =>
    match args.head? with
    | none => .error "annihilate: parameter not a number"
    | some a =>
      match parseIntJS a with
      | none => .error "annihilate: parameter not a number"
      | some n => deleteMsgEffect n now st
  | "theme" => .ok (themeHandler args st)
  | "theme save" =>
    match args with
    | [] => .ok (notify "Verwendung: theme save <Themenname>" st)
    | n :: _ =>
      .ok (notify ("Theme '" ++ n ++ "' gespeichert")
        { st with savedThemes := setAssoc n st.theme st.savedThemes })
  | "theme load" =>
    match args with
    | [] =>
      let names := st.savedThemes.map Prod.fst
      if names.isEmpty then .ok (notify "Keine gespeicherten Themes vorhanden" st)
      else .ok (notify ("Gespeicherte Themes:\n  " ++ String.intercalate "\n  " names) st)
    | n :: _ =>
      match st.savedThemes.lookup n with
      | none => .ok (notify ("Theme '" ++ n ++ "' nicht gefunden") st)
      | some t => .ok (notify ("Theme '" ++ n ++ "' geladen") { st with theme := t })
  | "help" => .ok (notify helpText st)
  | "exit" => .ok (notify "exit command not implemented yet" st)
  | _ => .ok st

/-- `handleCommandLine(line)`: skip blank lines (`!line.trim()`), record
history, echo the line as a `COMMAND` entry, then parse, resolve and run
the handler inside the single `try`/`catch` that converts any thrown
error into an `ERROR`-kind log entry. -/
def handleCommandLine (line : String) (now : Nat) (st : TermState) : TermState :=
  if line.data.all isJsSpace then st
  else
    let st3 := pushMessageS ("> " ++ line) .COMMAND "System" none none now (recordLine line st)
    match parseCommand line with
    | .error e => pushMessageS e .ERROR "System" none none now st3
    | .ok (cmd, args) =>
      match resolveCommand cmd args with
      | none => pushMessageS ("Unbekannter Befehl: " ++ cmd) .ERROR "System" none none now st3
      | some (h, fargs) =>
        match runHandler h fargs now st3 with
        | .ok st4 => st4
        | .error e => pushMessageS e .ERROR "System" none none now st3

/-- A room record as the server sends it inside a `get_rooms` result. -/
structure WireRoom where
  ID : Nat
  Name : String
  MemberCount : Nat
deriving Repr, DecidableEq

/-- A message record as the server sends it (`get_messages` result entry
or `new_message` payload). -/
structure WireMsg where
  MessageID : Nat
  Text : String
  Name : String
  Time : Option Nat
  ReadBy : Nat
deriving Repr, DecidableEq

/-- Inbound server replies (`data.response` messages), by discriminator. -/
inductive Reply
  | get_rooms (result : List WireRoom)
  | msg (error : Option String)
  | get_messages (result : List WireMsg)
  | join_room (error : Option String)
  | login_as (error : Option String) (user_id : Nat) (username : String)
  | create_user (error : Option String) (user_id : Nat) (username : String)
  | create_room (error : Option String) (room_id : Nat) (room_name : String)
  | nameof_user (error : Option String) (result : Option (Nat × String))
  | delete_msg (error : Option String)
deriving Repr, DecidableEq

/-- Insert into a descending-by-`memberCount` list, before the first
element with an equal or smaller count (so that, used under `foldr`,
originally-earlier rooms stay first): the stable
`sort((a, b) => b.memberCount - a.memberCount)` of the source. -/
def insertRoomDesc (r : Room) : List Room → List Room
  | [] => [r]
  | x :: xs => if r.memberCount ≥ x.memberCount then r :: x :: xs else x :: insertRoomDesc r xs

/-- Stable descending sort of the room list by member count. -/
def sortRoomsDesc (l : List Room) : List Room := l.foldr insertRoomDesc []

/-- One numbered line of the room list
(`` `${index + 1}. ${r.name}${members}` ``). -/
def roomListLine (i : Nat) (r : Room) : String :=
  let members :=
    if r.memberCount > 0 then
      " (" ++ toString r.memberCount ++ " " ++
        (if r.memberCount == 1 then "Mitglied" else "Mitglieder") ++ ")"
    else ""
  toString (i + 1) ++ ". " ++ r.name ++ members

/-- The joined room list shown by the `get_rooms` reply handler. -/
def roomListString (rs : List Room) : String :=
  String.intercalate "\n" (rs.enum.map (fun p => roomListLine p.1 p.2))

/-- The `onmessage` response dispatch (`switch (data.response)`).  The
`nameof_user` error branch rethrows out of the handler (`throw new
Error(...)`), hence the `Except`. -/
def handleReply (r : Reply) (now : Nat) (st : TermState) : Except String TermState :=
  match r with
  | .get_rooms result =>
    let mapped := result.map (fun w => Room.mk w.ID w.Name w.MemberCount)
    let st1 := { st with rooms := mapped }
    if mapped.isEmpty then
      .ok (tryPushMessage "Keine Räume verfügbar." .TEMPINFO "System" now st1)
    else
      .ok (tryPushMessage ("Verfügbare Räume:\n" ++ roomListString (sortRoomsDesc mapped))
        .TEMPINFO "System" now st1)
  | .msg e =>
    match e with
    | some err => .ok (tryPushMessage ("Fehler beim Senden der Nachricht: " ++ err) .ERROR "System" now st)
    | none => .ok st
  | .get_messages result =>
    .ok { st with log := { st.log with messages := result.map (fun w =>
        { id := w.MessageID, text := w.Text, kind := Kind.IN, sender := w.Name,
          timestamp := w.Time.getD now, readBy := some w.ReadBy }) } }
  | .join_room e =>
    match e with
    | some err => .ok (tryPushMessage ("Fehler beim Beitreten: " ++ err) .ERROR "System" now st)
    | none => .ok st
  | .login_as e uid uname =>
    match e with
    | none =>
      .ok (addUserToKnownList uid uname
        (tryPushMessage ("Gewechselt zu Nutzer " ++ uname ++ ".") .INFO "System" now
          { st with user := uname }))
    | some err => .ok (tryPushMessage ("Fehler beim Wechsel des Nutzers: " ++ err) .ERROR "System" now st)
  | .create_user e uid uname =>
    match e with
    | none =>
      .ok (addUserToKnownList uid uname
        (tryPushMessage ("Gewechselt zu neu ertelltem Nutzer '" ++ uname ++ "'.") .INFO "System" now
          { st with user := uname }))
    | some err => .ok (tryPushMessage ("Fehler bei der Erstellung des Nutzers: " ++ err) .ERROR "System" now st)
  | .create_room e rid rname =>
    match e with
    | none =>
      let st1 := pushMessageS ("Raum '" ++ rname ++ "' erfolgreich erstellt.") .TEMPINFO "System" none none now st
      let st2 := { st1 with roomId := (rid : Int), roomName := rname }
      let st3 := pushMessageS ("Zu Raum '" ++ rname ++ "' gewechselt.") .TEMPINFO "System" none none now st2
      let st4 := sendReq (.join_room (rid : Int)) st3
      .ok (sendReq .get_rooms { st4 with silent := true })
    | some err => .ok (pushMessageS ("Fehler beim Erstellen des Raums: " ++ err) .ERROR "System" none none now st)
  | .nameof_user e res =>
    match e, res with
    | none, some (uid, uname) => .ok (addUserToKnownList uid uname st)
    | _, _ => .error ("Fehler beim Abrufen des Benutzernamens: " ++ e.getD "null")
  | .delete_msg e =>
    match e with
    | some err => .ok (tryPushMessage ("Fehler beim Löschen der Nachricht: " ++ err) .ERROR "System" now st)
    | none => .ok (tryPushMessage "Nachricht erfolgreich gelöscht." .INFO "System" now st)

/-- Replies whose handler routes its visible entry through
`tryPushMessage` and which always attempt such an entry: `get_rooms`
(both branches), error acks of `msg`/`join_room`, both branches of
`login_as`/`create_user`, and both branches of `delete_msg`. -/
def gatedAttempt : Reply → Bool
  | .get_rooms _ => true
  | .msg (some _) => true
  | .join_room (some _) => true
  | .login_as _ _ _ => true
  | .create_user _ _ _ => true
  | .delete_msg _ => true
  | _ => false

/-- The `new_message` broadcast handler (`pushMessageDirectly`). -/
def handleNewMessage (w : WireMsg) (now : Nat) (st : TermState) : TermState :=
  let dm : DirectMsg :=
    { id := w.MessageID, text := w.Text, kind := some .IN, sender := w.Name,
      timestamp := some (w.Time.getD now), readBy := some w.ReadBy }
  { st with log := pushMessageDirectly dm now st.log }

/-- The `message_deleted` broadcast handler. -/
def handleMessageDeleted (mid : Nat) (st : TermState) : TermState :=
  { st with log := { st.log with messages := applyMessageDeleted mid st.log.messages } }

/-- `ws.current.onopen`: raise the online flag, announce the connection,
arm the suppression flag, request the room list, then restore a persisted
identity and room if present. -/
def onOpen (now : Nat) (st : TermState) : TermState :=
  let st4 := sendReq .get_rooms
    { (pushMessageS "Connected to Shello Server." .INFO "System" none none now
        { st with online := true }) with silent := true }
  let st5 := if st4.user != "" && st4.user != "guest" then sendReq (.login_as st4.user) st4 else st4
  if st5.roomId > 0 then
    sendReq (.get_messages st5.roomId) (sendReq (.join_room st5.roomId) st5)
  else st5

/-- `ws.current.onclose`: only a close while genuinely online appends the
"disconnected" notice and lowers the flag; in every case exactly one
reconnect attempt is scheduled after the fixed 3000 ms delay. -/
def onClose (now : Nat) (st : TermState) : TermState :=
  let st1 :=
    if st.online then
      { (pushMessageS "Disconnected from Shello Server." .INFO "System" none none now st) with
          online := false }
    else st
  { st1 with scheduledReconnects := st1.scheduledReconnects ++ [3000] }

/-- The spec's relative-deletion example log:
`[OUT#1(self), IN#2(other), OUT#3(self)]`. -/
def exampleLog : List Msg :=
  [{ id := 1, text := "m1", kind := .OUT, sender := "self", timestamp := 0, readBy := some 0 },
   { id := 2, text := "m2", kind := .IN, sender := "other", timestamp := 0, readBy := none },
   { id := 3, text := "m3", kind := .OUT, sender := "self", timestamp := 0, readBy := some 0 }]

/-- The "disconnected" notice appended by `onclose`. -/
def isDisconnectNotice (m : Msg) : Bool :=
  m.kind == .INFO && m.text == "Disconnected from Shello Server."

section Helpers

variable {α : Type*}

theorem filter_idem (p : α → Bool) (l : List α) : (l.filter p).filter p = l.filter p := by
  induction l with
  | nil => rfl
  | cons a t ih =>
    by_cases h : p a = true
    · simp [List.filter_cons, h, ih]
    · simp only [Bool.not_eq_true] at h
      simp [List.filter_cons, h, ih]

theorem countP_filter_le (p q : α → Bool) (l : List α) :
    (l.filter q).countP p ≤ l.countP p := by
  induction l with
  | nil => simp
  | cons a t ih =>
    by_cases h : q a = true
    · simp only [List.filter_cons, h, if_true, List.countP_cons]
      omega
    · simp only [Bool.not_eq_true] at h
      simp only [List.filter_cons, h, List.countP_cons, Bool.false_eq_true, if_false]
      omega

theorem countP_filter_of_imp (p q : α → Bool) (l : List α)
    (h : ∀ a, p a = true → q a = true) :
    (l.filter q).countP p = l.countP p := by
  induction l with
  | nil => rfl
  | cons a t ih =>
    by_cases hq : q a = true
    · simp [List.filter_cons, hq, List.countP_cons, ih]
    · have hp : ¬ p a = true := fun hpa => hq (h a hpa)
      simp only [Bool.not_eq_true] at hq hp
      simp [List.filter_cons, hq, List.countP_cons, ih, hp]

end Helpers

/-- **C3** (confirmed): appending an entry of kind `INFO` or `IN` first
evicts every `COMMAND`/`ERROR`/`TEMPINFO` entry and then appends the new
entry at the end; appending an entry of any other (non-control) kind —
`OUT`, `ERROR`, `COMMAND`, `TEMPINFO` — evicts nothing; and on the log
`[COMMAND, ERROR, TEMPINFO, IN]` an incoming `IN` entry leaves exactly
the prior `IN` entry plus the new one. -/
theorem C3_log_eviction :
    (∀ (st : LogState) text sender ts id now,
      (pushMessage text .IN sender ts id now st).messages
        = st.messages.filter (fun m => !(isEvictOnReal m.kind))
            ++ [mkEntry text .IN sender (id.getD st.nextId) now]) ∧
    (∀ (st : LogState) text sender ts id now,
      (pushMessage text .INFO sender ts id now st).messages
        = st.messages.filter (fun m => !(isEvictOnReal m.kind))
            ++ [mkEntry text .INFO sender (id.getD st.nextId) now]) ∧
    (∀ (st : LogState) text sender ts id now,
      (pushMessage text .OUT sender ts id now st).messages
        = st.messages ++ [mkEntry text .OUT sender (id.getD st.nextId) now]) ∧
    (∀ (st : LogState) text sender ts id now,
      (pushMessage text .ERROR sender ts id now st).messages
        = st.messages ++ [mkEntry text .ERROR sender (id.getD st.nextId) now]) ∧
    (∀ (st : LogState) text sender ts id now,
      (pushMessage text .COMMAND sender ts id now st).messages
        = st.messages ++ [mkEntry text .COMMAND sender (id.getD st.nextId) now]) ∧
    (∀ (st : LogState) text sender ts id now,
      (pushMessage text .TEMPINFO sender ts id now st).messages
        = st.messages ++ [mkEntry text .TEMPINFO sender (id.getD st.nextId) now]) ∧
    (pushMessage "neu" .IN "remote" none none 9
        { messages :=
            [mkEntry "> cmd" .COMMAND "System" 1 0,
             mkEntry "err" .ERROR "System" 2 0,
             mkEntry "tmp" .TEMPINFO "System" 3 0,
             mkEntry "alt" .IN "other" 4 0],
          nextId := 5 }).messages
      = [mkEntry "alt" .IN "other" 4 0, mkEntry "neu" .IN "remote" 5 9] :=
  ⟨fun _ _ _ _ _ _ => rfl, fun _ _ _ _ _ _ => rfl, fun _ _ _ _ _ _ => rfl,
   fun _ _ _ _ _ _ => rfl, fun _ _ _ _ _ _ => rfl, fun _ _ _ _ _ _ => rfl, rfl⟩

/-- **C4** (confirmed): a `CLEAR` signal keeps exactly the `IN` entries in
order, `CLEAR_ALL` empties the log unconditionally, both are idempotent,
and neither signal is ever stored: `pushMessage` never increases the
number of `CLEAR`/`CLEAR_ALL`-kind entries in the log (which is zero from
the empty initial log onwards). -/
theorem C4_clear_signals :
    (∀ (st : LogState) text sender ts id now,
      (pushMessage text .CLEAR sender ts id now st).messages
        = st.messages.filter (fun m => m.kind == .IN)) ∧
    (∀ (st : LogState) text sender ts id now,
      (pushMessage text .CLEAR_ALL sender ts id now st).messages = []) ∧
    (∀ (st : LogState) t1 s1 ts1 id1 n1 t2 s2 ts2 id2 n2,
      (pushMessage t2 .CLEAR s2 ts2 id2 n2 (pushMessage t1 .CLEAR s1 ts1 id1 n1 st)).messages
        = (pushMessage t1 .CLEAR s1 ts1 id1 n1 st).messages) ∧
    (∀ (st : LogState) t1 s1 ts1 id1 n1 t2 s2 ts2 id2 n2,
      (pushMessage t2 .CLEAR_ALL s2 ts2 id2 n2 (pushMessage t1 .CLEAR_ALL s1 ts1 id1 n1 st)).messages
        = (pushMessage t1 .CLEAR_ALL s1 ts1 id1 n1 st).messages) ∧
    (∀ (st : LogState) text kind sender ts id now,
      (pushMessage text kind sender ts id now st).messages.countP (fun m => isClearKind m.kind)
        ≤ st.messages.countP (fun m => isClearKind m.kind)) := by
  refine ⟨fun _ _ _ _ _ _ => rfl, fun _ _ _ _ _ _ => rfl,
    fun st _ _ _ _ _ _ _ _ _ _ => ?_, fun _ _ _ _ _ _ _ _ _ _ _ => rfl,
    fun st text kind sender ts id now => ?_⟩
  · exact filter_idem _ st.messages
  · have hle := countP_filter_le (fun m => isClearKind m.kind)
      (fun m => !(isEvictOnReal m.kind)) st.messages
    cases kind with
    | CLEAR => exact countP_filter_le _ _ st.messages
    | CLEAR_ALL => simp [pushMessage]
    | IN =>
      have h : (pushMessage text .IN sender ts id now st).messages
          = st.messages.filter (fun m => !(isEvictOnReal m.kind))
              ++ [mkEntry text .IN sender (id.getD st.nextId) now] := rfl
      have h2 : List.countP (fun m => isClearKind m.kind)
          [mkEntry text .IN sender (id.getD st.nextId) now] = 0 := rfl
      rw [h, List.countP_append, h2]
      omega
    | INFO =>
      have h : (pushMessage text .INFO sender ts id now st).messages
          = st.messages.filter (fun m => !(isEvictOnReal m.kind))
              ++ [mkEntry text .INFO sender (id.getD st.nextId) now] := rfl
      have h2 : List.countP (fun m => isClearKind m.kind)
          [mkEntry text .INFO sender (id.getD st.nextId) now] = 0 := rfl
      rw [h, List.countP_append, h2]
      omega
    | OUT =>
      have h : (pushMessage text .OUT sender ts id now st).messages
          = st.messages ++ [mkEntry text .OUT sender (id.getD st.nextId) now] := rfl
      have h2 : List.countP (fun m => isClearKind m.kind)
          [mkEntry text .OUT sender (id.getD st.nextId) now] = 0 := rfl
      rw [h, List.countP_append, h2]
      omega
    | ERROR =>
      have h : (pushMessage text .ERROR sender ts id now st).messages
          = st.messages ++ [mkEntry text .ERROR sender (id.getD st.nextId) now] := rfl
      have h2 : List.countP (fun m => isClearKind m.kind)
          [mkEntry text .ERROR sender (id.getD st.nextId) now] = 0 := rfl
      rw [h, List.countP_append, h2]
      omega
    | COMMAND =>
      have h : (pushMessage text .COMMAND sender ts id now st).messages
          = st.messages ++ [mkEntry text .COMMAND sender (id.getD st.nextId) now] := rfl
      have h2 : List.countP (fun m => isClearKind m.kind)
          [mkEntry text .COMMAND sender (id.getD st.nextId) now] = 0 := rfl
      rw [h, List.countP_append, h2]
      omega
    | TEMPINFO =>
      have h : (pushMessage text .TEMPINFO sender ts id now st).messages
          = st.messages ++ [mkEntry text .TEMPINFO sender (id.getD st.nextId) now] := rfl
      have h2 : List.countP (fun m => isClearKind m.kind)
          [mkEntry text .TEMPINFO sender (id.getD st.nextId) now] = 0 := rfl
      rw [h, List.countP_append, h2]
      omega

/-- **C10** (confirmed): the optional `timestamp` parameter of
`pushMessage` is never used — the function is constant in it — and every
stored entry carries the local append instant `now`, also on the
`pushMessageDirectly` path that forwards the server's own timestamp. -/
theorem C10_local_timestamp :
    (∀ text kind sender ts1 ts2 id now (st : LogState),
      pushMessage text kind sender ts1 id now st = pushMessage text kind sender ts2 id now st) ∧
    (∀ text sender ts id now (st : LogState),
      ((pushMessage text .IN sender ts id now st).messages.getLast?).map Msg.timestamp
        = some now) ∧
    (∀ i text sender ts rb now (st : LogState),
      ((pushMessageDirectly
          { id := i, text := text, kind := some .IN, sender := sender,
            timestamp := ts, readBy := rb } now st).messages.getLast?).map Msg.timestamp
        = some now) ∧
    (∀ (w : WireMsg) (now : Nat) (st : TermState),
      (((handleNewMessage w now st).log.messages.getLast?).map Msg.timestamp) = some now) := by
  refine ⟨fun _ _ _ _ _ _ _ _ => rfl, fun text sender ts id now st => ?_,
    fun i text sender ts rb now st => ?_, fun w now st => ?_⟩
  · simp [pushMessage, List.getLast?_concat, mkEntry]
  · simp [pushMessageDirectly, pushMessage, List.getLast?_concat, mkEntry, Option.getD]
  · simp [handleNewMessage, pushMessageDirectly, pushMessage, List.getLast?_concat, mkEntry,
      Option.getD]

/-- The scanning loop resolves exactly to the n-th entry (1-based) of the
reversed log filtered by the own-chat condition, and fails out of range
when no such entry exists. -/
theorem resolveNthOwnRev_eq (user : String) (l : List Msg) :
    ∀ n : Nat, 1 ≤ n →
      resolveNthOwnRev user l n
        = match (l.filter (isOwnChat user)).get? (n - 1) with
          | some m => Except.ok m.id
          | none => Except.error DelErr.OutOfRange := by
  induction l with
  | nil => intro n hn; rfl
  | cons m rest ih =>
    intro n hn
    by_cases h : isOwnChat user m = true
    · match n, hn with
      | 1, _ =>
        simp [resolveNthOwnRev, h, List.filter_cons]
      | (n'' + 2), _ =>
        have ih' := ih (n'' + 1) (by omega)
        simp only [resolveNthOwnRev, h, if_true, if_pos]
        rw [if_neg (by omega)]
        simp only [List.filter_cons, h, if_pos]
        exact ih'
    · simp only [Bool.not_eq_true] at h
      simp only [resolveNthOwnRev, h, Bool.false_eq_true, if_false, ih n hn,
        List.filter_cons]

/-- **C2** (confirmed): relative deletion rejects non-positive offsets
with `BadArguments`; for positive `n` it scans the log from the end,
counting only entries whose sender is the current identity and whose
kind is `IN` or `OUT`, and resolves to the n-th such entry's id, failing
`OutOfRange` when fewer than `n` such entries exist (the loop's
`undefined` access); on the spec's example log
`[OUT#1(self), IN#2(other), OUT#3(self)]` offsets 1, 2, 3 give id 3,
id 1, `OutOfRange`; and a non-numeric count makes the `annihilate`
handler fail with its bad-arguments message. -/
theorem C2_relative_deletion :
    (∀ (msgs : List Msg) (user : String) (n : Int), n ≤ 0 →
      deleteMsgResolve msgs user n = .error .BadArguments) ∧
    (∀ (msgs : List Msg) (user : String) (n : Int), 0 < n →
      deleteMsgResolve msgs user n
        = match (msgs.reverse.filter (isOwnChat user)).get? (n.toNat - 1) with
          | some m => Except.ok m.id
          | none => Except.error DelErr.OutOfRange) ∧
    deleteMsgResolve exampleLog "self" 1 = .ok 3 ∧
    deleteMsgResolve exampleLog "self" 2 = .ok 1 ∧
    deleteMsgResolve exampleLog "self" 3 = .error .OutOfRange ∧
    runHandler "annihilate" ["xyz"] 0 baseState = .error "annihilate: parameter not a number" := by
  refine ⟨fun msgs user n hn => ?_, fun msgs user n hn => ?_, rfl, rfl, rfl, rfl⟩
  · simp [deleteMsgResolve, hn]
  · rw [deleteMsgResolve, if_neg (by omega)]
    exact resolveNthOwnRev_eq user msgs.reverse n.toNat (by omega)

/-- Witness for `C2_relative_deletion`: its hypothesis-carrying conjuncts
applied at concrete inputs. -/
theorem C2_relative_deletion_witness :
    deleteMsgResolve exampleLog "self" (-1) = .error .BadArguments ∧
    deleteMsgResolve exampleLog "self" 2
      = match (exampleLog.reverse.filter (isOwnChat "self")).get? ((2 : Int).toNat - 1) with
        | some m => Except.ok m.id
        | none => Except.error DelErr.OutOfRange :=
  ⟨C2_relative_deletion.1 exampleLog "self" (-1) (by decide),
   C2_relative_deletion.2.1 exampleLog "self" 2 (by decide)⟩

/-- **C9** (confirmed): processing a server-confirmed deletion tombstones
the first entry carrying the deleted id — its text becomes the deletion
placeholder and its kind becomes `INFO`, while its id, sender, timestamp
and read count are untouched — the entry keeps its position, the log's
length is unchanged, every other entry is unchanged, and nothing is
removed (a log without the id is left as-is). -/
theorem C9_tombstoning :
    (∀ (mid : Nat) (pre post : List Msg) (m : Msg),
      (∀ x ∈ pre, x.id ≠ mid) → m.id = mid →
      applyMessageDeleted mid (pre ++ m :: post)
        = pre ++ { m with text := "[Nachricht gelöscht]", kind := Kind.INFO } :: post) ∧
    (∀ (mid : Nat) (l : List Msg), (applyMessageDeleted mid l).length = l.length) ∧
    (∀ (mid : Nat) (l : List Msg), (∀ x ∈ l, x.id ≠ mid) →
      applyMessageDeleted mid l = l) ∧
    (∀ m : Msg, (tombstone m).id = m.id ∧ (tombstone m).sender = m.sender ∧
      (tombstone m).timestamp = m.timestamp ∧ (tombstone m).readBy = m.readBy ∧
      (tombstone m).text = "[Nachricht gelöscht]" ∧ (tombstone m).kind = Kind.INFO) ∧
    (∀ (mid : Nat) (st : TermState),
      (handleMessageDeleted mid st).log.messages = applyMessageDeleted mid st.log.messages ∧
      (handleMessageDeleted mid st).log.nextId = st.log.nextId) := by
  refine ⟨?_, ?_, ?_, fun m => ⟨rfl, rfl, rfl, rfl, rfl, rfl⟩, fun mid st => ⟨rfl, rfl⟩⟩
  · intro mid pre post m hpre hm
    induction pre with
    | nil =>
      have : (m.id == mid) = true := by simp [hm]
      simp [applyMessageDeleted, this, tombstone]
    | cons p pre' ih =>
      have hp : (p.id == mid) = false := by
        simp [hpre p (List.mem_cons_self p pre')]
      simp only [List.cons_append, applyMessageDeleted, hp, Bool.false_eq_true, if_false,
        List.cons.injEq, true_and]
      exact ih (fun x hx => hpre x (List.mem_cons_of_mem p hx))
  · intro mid l
    induction l with
    | nil => rfl
    | cons m rest ih =>
      by_cases h : (m.id == mid) = true
      · simp [applyMessageDeleted, h]
      · simp only [Bool.not_eq_true] at h
        simp [applyMessageDeleted, h, ih]
  · intro mid l hl
    induction l with
    | nil => rfl
    | cons m rest ih =>
      have hp : (m.id == mid) = false := by
        simp [hl m (List.mem_cons_self m rest)]
      simp only [applyMessageDeleted, hp, Bool.false_eq_true, if_false, List.cons.injEq, true_and]
      exact ih (fun x hx => hl x (List.mem_cons_of_mem m hx))

/-- Witness for `C9_tombstoning`: tombstoning id 2 in the example log. -/
theorem C9_tombstoning_witness :
    applyMessageDeleted 2
        ([{ id := 1, text := "m1", kind := .OUT, sender := "self", timestamp := 0, readBy := some 0 }]
          ++ { id := 2, text := "m2", kind := .IN, sender := "other", timestamp := 0, readBy := none }
            :: [{ id := 3, text := "m3", kind := .OUT, sender := "self", timestamp := 0, readBy := some 0 }])
      = [{ id := 1, text := "m1", kind := .OUT, sender := "self", timestamp := 0, readBy := some 0 }]
          ++ { id := 2, text := "[Nachricht gelöscht]", kind := Kind.INFO, sender := "other",
                timestamp := 0, readBy := none }
            :: [{ id := 3, text := "m3", kind := .OUT, sender := "self", timestamp := 0, readBy := some 0 }] :=
  C9_tombstoning.1 2
    [{ id := 1, text := "m1", kind := .OUT, sender := "self", timestamp := 0, readBy := some 0 }]
    [{ id := 3, text := "m3", kind := .OUT, sender := "self", timestamp := 0, readBy := some 0 }]
    { id := 2, text := "m2", kind := .IN, sender := "other", timestamp := 0, readBy := none }
    (by decide) rfl

/-- **C5** (confirmed): with non-empty arguments, dispatch first probes
the registry for the two-token command `"<cmd> <args[0]>"`, invoking it
with `args[0]` dropped on a hit, and falls back to the single-token
command with the full argument list otherwise; in particular `"theme"`
with arguments `["save", "x"]` resolves to the registered `"theme save"`
handler with `["x"]`, and running the full command line `"theme save x"`
indeed saves the current theme under the name `"x"` (not `"save"`). -/
theorem C5_subcommand_dispatch :
    (∀ (cmd a : String) (rest : List String) (h : String),
      lookupCommand (cmd ++ " " ++ a) = some h →
      resolveCommand cmd (a :: rest) = some (h, rest)) ∧
    (∀ (cmd a : String) (rest : List String),
      lookupCommand (cmd ++ " " ++ a) = none →
      resolveCommand cmd (a :: rest) = (lookupCommand cmd).map (fun h => (h, a :: rest))) ∧
    lookupCommand "theme" = some "theme" ∧
    lookupCommand "theme save" = some "theme save" ∧
    resolveCommand "theme" ["save", "x"] = some ("theme save", ["x"]) ∧
    (handleCommandLine "theme save x" 0 baseState).savedThemes = [("x", defaultTheme)] ∧
    (handleCommandLine "theme save x" 0 baseState).systemNotification = "Theme 'x' gespeichert" := by
  refine ⟨fun cmd a rest h hl => ?_, fun cmd a rest hl => ?_, rfl, rfl, rfl, rfl, rfl⟩
  · simp [resolveCommand, hl]
  · simp [resolveCommand, hl]

/-- Witness for `C5_subcommand_dispatch`: the two resolution rules at
concrete inputs (a registered subcommand probe, and a missing one). -/
theorem C5_subcommand_dispatch_witness :
    resolveCommand "theme" ["save", "x"] = some ("theme save", ["x"]) ∧
    resolveCommand "send" ["hello"] = (lookupCommand "send").map (fun h => (h, ["hello"])) :=
  ⟨C5_subcommand_dispatch.1 "theme" "save" ["x"] "theme save" rfl,
   C5_subcommand_dispatch.2.1 "send" "hello" [] rfl⟩

/-- **C8** (confirmed): a transport close while the was-online flag is
set appends the `INFO` "disconnected" entry (exactly one such entry is
added), lowers the flag and schedules exactly one reconnect after the
fixed 3000 ms delay; a close before any successful open (flag still
down) appends nothing and still schedules exactly one reconnect — the
manager never stops retrying — and a successful open raises the flag. -/
theorem C8_reconnect :
    (∀ (st : TermState) (now : Nat), st.online = true →
      onClose now st
        = { (pushMessageS "Disconnected from Shello Server." .INFO "System" none none now st) with
            online := false,
            scheduledReconnects := st.scheduledReconnects ++ [3000] }) ∧
    (∀ (st : TermState) (now : Nat), st.online = false →
      onClose now st = { st with scheduledReconnects := st.scheduledReconnects ++ [3000] }) ∧
    (∀ (st : TermState) (now : Nat),
      (onClose now st).scheduledReconnects = st.scheduledReconnects ++ [3000]) ∧
    (∀ (st : TermState) (now : Nat), (onOpen now st).online = true) ∧
    (∀ (st : TermState) (now : Nat), st.online = true →
      (onClose now st).log.messages.countP isDisconnectNotice
        = st.log.messages.countP isDisconnectNotice + 1) ∧
    (∀ (st : TermState) (now : Nat), st.online = false → (onClose now st).log = st.log) := by
  have himp : ∀ m : Msg, isDisconnectNotice m = true → (!(isEvictOnReal m.kind)) = true := by
    intro m hm
    simp only [isDisconnectNotice, Bool.and_eq_true, beq_iff_eq] at hm
    rw [hm.1]
    rfl
  refine ⟨fun st now h => ?_, fun st now h => ?_, fun st now => ?_, fun st now => ?_,
    fun st now h => ?_, fun st now h => ?_⟩
  · simp [onClose, h, pushMessageS]
  · simp [onClose, h]
  · by_cases h : st.online = true <;> simp [onClose, h, pushMessageS]
  · simp [onOpen, sendReq, pushMessageS, apply_ite TermState.online]
  · have hmsg : (onClose now st).log.messages
        = st.log.messages.filter (fun m => !(isEvictOnReal m.kind))
          ++ [mkEntry "Disconnected from Shello Server." .INFO "System" st.log.nextId now] := by
      simp [onClose, h, pushMessageS, pushMessage]
    have h1 : List.countP isDisconnectNotice
        [mkEntry "Disconnected from Shello Server." .INFO "System" st.log.nextId now] = 1 := rfl
    rw [hmsg, List.countP_append, h1,
      countP_filter_of_imp isDisconnectNotice (fun m => !(isEvictOnReal m.kind)) _ himp]
  · simp [onClose, h]

/-- Witness for `C8_reconnect`: both close transitions at concrete
states. -/
theorem C8_reconnect_witness :
    onClose 5 { baseState with online := true }
      = { (pushMessageS "Disconnected from Shello Server." .INFO "System" none none 5
            { baseState with online := true }) with
          online := false,
          scheduledReconnects := baseState.scheduledReconnects ++ [3000] } ∧
    onClose 5 baseState
      = { baseState with scheduledReconnects := baseState.scheduledReconnects ++ [3000] } :=
  ⟨C8_reconnect.1 { baseState with online := true } 5 rfl,
   C8_reconnect.2.1 baseState 5 rfl⟩

/-- Outside quotes, a run of plain characters (no whitespace, no quote)
only extends the current token. -/
theorem foldl_scanChar_plain (l : List Char) (args : List String) (cur : List Char) (qc : Char)
    (h : ∀ c ∈ l, (isJsSpace c || c == '"' || c == '\'') = false) :
    l.foldl scanChar ⟨args, ⟨cur⟩, false, qc⟩ = ⟨args, ⟨cur ++ l⟩, false, qc⟩ := by
  induction l generalizing cur with
  | nil => simp
  | cons c l ih =>
    have hc := h c (List.mem_cons_self c l)
    rw [Bool.or_eq_false_iff, Bool.or_eq_false_iff] at hc
    obtain ⟨⟨h1, h2⟩, h3⟩ := hc
    rw [List.foldl_cons]
    have hstep : scanChar ⟨args, ⟨cur⟩, false, qc⟩ c = ⟨args, ⟨cur ++ [c]⟩, false, qc⟩ := by
      simp [scanChar, h1, h2, h3, String.push]
    rw [hstep, ih (cur ++ [c]) (fun c hc => h c (List.mem_cons_of_mem _ hc))]
    simp

/-- Inside a quoted span, every character other than the matching quote is
appended verbatim to the current token. -/
theorem foldl_scanChar_inQuote (l : List Char) (args : List String) (cur : List Char) (qc : Char)
    (h : ∀ c ∈ l, (c == qc) = false) :
    l.foldl scanChar ⟨args, ⟨cur⟩, true, qc⟩ = ⟨args, ⟨cur ++ l⟩, true, qc⟩ := by
  induction l generalizing cur with
  | nil => simp
  | cons c l ih =>
    have hc := h c (List.mem_cons_self c l)
    rw [List.foldl_cons]
    have hstep : scanChar ⟨args, ⟨cur⟩, true, qc⟩ c = ⟨args, ⟨cur ++ [c]⟩, true, qc⟩ := by
      simp [scanChar, hc, String.push]
    rw [hstep, ih (cur ++ [c]) (fun c hc => h c (List.mem_cons_of_mem _ hc))]
    simp

/-- **C6** (confirmed): the tokenizer splits on whitespace outside quotes
(two plain tokens separated by a space parse as command plus one
argument); a quoted span is appended verbatim, including internal
whitespace, up to the matching quote; an immediately closed quote pair
contributes no token; the first token is the command; and the spec's
examples hold: `parse('send "a b" c')` is `("send", ["a b", "c"])` and a
whitespace-only line parses to the empty command with no arguments;
non-ASCII whitespace (e.g. a no-break space U+00A0) also separates
tokens, per the Unicode whitespace classification of the JS regex. -/
theorem C6_tokenizer :
    (∀ (q : String), (∀ c ∈ q.data, (c == '"') = false) →
      parseCommand ("send \"" ++ q ++ "\"")
        = .ok ("send", if q = "" then [] else [q])) ∧
    (∀ (t1 t2 : String), t1.data ≠ [] → t2.data ≠ [] →
      (∀ c ∈ t1.data, (isJsSpace c || c == '"' || c == '\'') = false) →
      (∀ c ∈ t2.data, (isJsSpace c || c == '"' || c == '\'') = false) →
      parseCommand (t1 ++ " " ++ t2) = .ok (t1, [t2])) ∧
    parseCommand "send \"a b\" c" = .ok ("send", ["a b", "c"]) ∧
    parseCommand "send 'a  b'" = .ok ("send", ["a  b"]) ∧
    parseCommand "   " = .ok ("", []) ∧
    parseCommand "send \"\" c" = .ok ("send", ["c"]) ∧
    parseCommand "a\u00A0b c" = .ok ("a", ["b", "c"]) := by
  refine ⟨?_, ?_, rfl, rfl, rfl, rfl, rfl⟩
  · intro q hq
    obtain ⟨qd⟩ := q
    by_cases hnil : qd = []
    · subst hnil
      rfl
    · have hdata : ("send \"" ++ String.mk qd ++ "\"").data
          = ['s', 'e', 'n', 'd', ' ', '"'] ++ (qd ++ ['"']) := by
        simp [String.data_append]
      have hne : String.mk qd ≠ "" := by
        intro hh
        exact hnil (congrArg String.data hh)
      rw [parseCommand, hdata, List.foldl_append, List.foldl_append]
      have h1 : List.foldl scanChar
          { args := [], cur := "", inQuote := false, quoteChar := ' ' }
          ['s', 'e', 'n', 'd', ' ', '"'] = ⟨["send"], ⟨[]⟩, true, '"'⟩ := rfl
      rw [h1, foldl_scanChar_inQuote qd ["send"] [] '"' hq]
      have h2 : List.foldl scanChar ⟨["send"], ⟨[] ++ qd⟩, true, '"'⟩ ['"']
          = ⟨["send", ⟨qd⟩], "", false, ' '⟩ := by
        simp only [List.nil_append, List.foldl_cons, List.foldl_nil]
        simp [scanChar, bne_iff_ne, hne]
      rw [h2]
      simp [hne]
  · intro t1 t2 hn1 hn2 h1 h2
    obtain ⟨d1⟩ := t1
    obtain ⟨d2⟩ := t2
    have hne1 : String.mk d1 ≠ "" := by
      intro hh
      exact hn1 (congrArg String.data hh)
    have hne2 : String.mk d2 ≠ "" := by
      intro hh
      exact hn2 (congrArg String.data hh)
    have hdata : (String.mk d1 ++ " " ++ String.mk d2).data = d1 ++ ([' '] ++ d2) := by
      simp [String.data_append]
    rw [parseCommand, hdata, List.foldl_append, List.foldl_append]
    have hinit : ({ args := [], cur := "", inQuote := false, quoteChar := ' ' } : ScanState)
        = ⟨[], ⟨[]⟩, false, ' '⟩ := rfl
    rw [hinit, foldl_scanChar_plain d1 [] [] ' ' h1]
    have hsp : List.foldl scanChar ⟨[], ⟨[] ++ d1⟩, false, ' '⟩ [' ']
        = ⟨[⟨d1⟩], ⟨[]⟩, false, ' '⟩ := by
      simp only [List.nil_append, List.foldl_cons, List.foldl_nil]
      simp [scanChar, isJsSpace, bne_iff_ne, hne1]
    rw [hsp, foldl_scanChar_plain d2 [⟨d1⟩] [] ' ' h2]
    simp [hne2]

/-- Witness for `C6_tokenizer`: its quantified conjuncts at concrete
inputs. -/
theorem C6_tokenizer_witness :
    parseCommand ("send \"" ++ "a b" ++ "\"") = .ok ("send", if "a b" = "" then [] else ["a b"]) ∧
    parseCommand ("foo" ++ " " ++ "bar") = .ok ("foo", ["bar"]) :=
  ⟨C6_tokenizer.1 "a b" (by decide),
   C6_tokenizer.2.1 "foo" "bar" (by decide) (by decide) (by decide) (by decide)⟩

/-- **C7** (confirmed): every error raised while handling a submitted
command line — an unterminated-quote parse failure (which invokes no
handler: the outbound trace is untouched), an unknown command name, a
missing message text, or a non-numeric count — is caught at the single
submission boundary and turned into a visible `ERROR`-kind log entry on
top of the echoed command; `handleCommandLine` is a total function, so
no error propagates out of it. -/
theorem C7_error_routing :
    (∀ (st : TermState) (now : Nat),
      handleCommandLine "send 'x" now st
        = pushMessageS "Unterminated quote" .ERROR "System" none none now
            (pushMessageS "> send 'x" .COMMAND "System" none none now (recordLine "send 'x" st))) ∧
    (∀ (st : TermState) (now : Nat),
      (handleCommandLine "send 'x" now st).outbound = st.outbound) ∧
    (∀ (st : TermState) (now : Nat),
      handleCommandLine "frobnicate" now st
        = pushMessageS "Unbekannter Befehl: frobnicate" .ERROR "System" none none now
            (pushMessageS "> frobnicate" .COMMAND "System" none none now
              (recordLine "frobnicate" st))) ∧
    (∀ (st : TermState) (now : Nat),
      handleCommandLine "send" now st
        = pushMessageS "send: Nachricht fehlt" .ERROR "System" none none now
            (pushMessageS "> send" .COMMAND "System" none none now (recordLine "send" st))) ∧
    (∀ (st : TermState) (now : Nat),
      handleCommandLine "annihilate xyz" now st
        = pushMessageS "annihilate: parameter not a number" .ERROR "System" none none now
            (pushMessageS "> annihilate xyz" .COMMAND "System" none none now
              (recordLine "annihilate xyz" st))) := by
  have h1 : ∀ (st : TermState) (now : Nat),
      handleCommandLine "send 'x" now st
        = pushMessageS "Unterminated quote" .ERROR "System" none none now
            (pushMessageS "> send 'x" .COMMAND "System" none none now (recordLine "send 'x" st)) :=
    fun st now => rfl
  refine ⟨h1, fun st now => ?_, fun _ _ => rfl, fun _ _ => rfl, fun _ _ => rfl⟩
  rw [h1 st now]
  by_cases hc : (st.commandHistory.getLast? == some "send 'x") = true <;>
    simp [pushMessageS, recordLine, hc]

/-- **C1 counterexample** (claim as stated is false): a `create_room`
error reply processed while `PendingSuppression` is set still appends
its visible `ERROR` entry (the log grows from 0 to 1 entries) and leaves
the flag set — its handler calls `pushMessage` directly, bypassing the
suppression gate — contradicting "the one visible log entry that the
reply would otherwise append is dropped, the flag is then cleared ...
for every inbound server reply processed while the flag is set". -/
theorem C1_counterexample :
    (handleReply (.create_room (some "boom") 7 "neu") 0
        { baseState with silent := true }).toOption.map
      (fun s => (s.silent, s.log.messages.length))
      = some (true, 1) := rfl

/-- **C1 amended**: for every reply whose handler routes its visible
entry through the suppression gate and always attempts one (`get_rooms`,
error acks of `msg`/`join_room`, both outcomes of
`login_as`/`create_user`/`delete_msg`), processing under a set flag
equals normal processing with the log restored to its prior value — all
state-mutating effects still apply, the one visible entry is dropped —
and the flag ends cleared in both runs, so the next reply's entry is
appended normally; this holds regardless of whether the reply carried an
error.  (`create_room` replies bypass the gate, and gated replies that
attempt no entry — success acks of `msg`/`join_room` — leave the flag
set.) -/
theorem C1_suppression_amended (r : Reply) (st : TermState) (now : Nat)
    (hg : gatedAttempt r = true) (hs : st.silent = true) :
    handleReply r now st
      = (handleReply r now { st with silent := false }).map (fun s => { s with log := st.log }) ∧
    (handleReply r now { st with silent := false }).toOption.map TermState.silent = some false ∧
    (handleReply r now st).toOption.map TermState.silent = some false := by
  obtain ⟨lg, us, rid, rnm, rms, kus, ob, sil, onl, th, svt, noti, ch, hi, sr⟩ := st
  replace hs : sil = true := hs
  subst hs
  cases r with
  | get_rooms res =>
    by_cases hm : (res.map (fun w => Room.mk w.ID w.Name w.MemberCount)).isEmpty = true <;>
      simp [handleReply, hm, tryPushMessage, pushMessageS, Except.map] <;>
      exact ⟨⟨_, rfl, rfl⟩, ⟨_, rfl, rfl⟩⟩
  | msg e =>
    cases e with
    | none => simp [gatedAttempt] at hg
    | some err =>
      simp [handleReply, tryPushMessage, pushMessageS, Except.map]
      exact ⟨⟨_, rfl, rfl⟩, ⟨_, rfl, rfl⟩⟩
  | get_messages res => simp [gatedAttempt] at hg
  | join_room e =>
    cases e with
    | none => simp [gatedAttempt] at hg
    | some err =>
      simp [handleReply, tryPushMessage, pushMessageS, Except.map]
      exact ⟨⟨_, rfl, rfl⟩, ⟨_, rfl, rfl⟩⟩
  | login_as e uid uname =>
    cases e with
    | none =>
      simp [handleReply, tryPushMessage, pushMessageS, addUserToKnownList, Except.map]
      exact ⟨⟨_, rfl, rfl⟩, ⟨_, rfl, rfl⟩⟩
    | some err =>
      simp [handleReply, tryPushMessage, pushMessageS, Except.map]
      exact ⟨⟨_, rfl, rfl⟩, ⟨_, rfl, rfl⟩⟩
  | create_user e uid uname =>
    cases e with
    | none =>
      simp [handleReply, tryPushMessage, pushMessageS, addUserToKnownList, Except.map]
      exact ⟨⟨_, rfl, rfl⟩, ⟨_, rfl, rfl⟩⟩
    | some err =>
      simp [handleReply, tryPushMessage, pushMessageS, Except.map]
      exact ⟨⟨_, rfl, rfl⟩, ⟨_, rfl, rfl⟩⟩
  | create_room e rid' rnm' => simp [gatedAttempt] at hg
  | nameof_user e res => simp [gatedAttempt] at hg
  | delete_msg e =>
    cases e with
    | none =>
      simp [handleReply, tryPushMessage, pushMessageS, Except.map]
      exact ⟨⟨_, rfl, rfl⟩, ⟨_, rfl, rfl⟩⟩
    | some err =>
      simp [handleReply, tryPushMessage, pushMessageS, Except.map]
      exact ⟨⟨_, rfl, rfl⟩, ⟨_, rfl, rfl⟩⟩

/-- Witness for `C1_suppression_amended`: a suppressed `delete_msg`
success ack at a concrete state. -/
theorem C1_suppression_amended_witness :
    handleReply (.delete_msg none) 0 { baseState with silent := true }
      = (handleReply (.delete_msg none) 0
            { { baseState with silent := true } with silent := false }).map
          (fun s => { s with log := ({ baseState with silent := true } : TermState).log }) ∧
    (handleReply (.delete_msg none) 0
        { { baseState with silent := true } with silent := false }).toOption.map TermState.silent
      = some false ∧
    (handleReply (.delete_msg none) 0 { baseState with silent := true }).toOption.map
        TermState.silent
      = some false :=
  C1_suppression_amended (.delete_msg none) { baseState with silent := true } 0 rfl rfl

end Shello
